import Mathlib

/-!
Shallow embedding of the SOUN cycle trading bot (src/soun_bot.py).

The bot keeps a persisted dictionary `self.data` with six fields; each tick
(`run`) applies a day rollover, a daily trade-limit gate, and then either a
unit buy (`buy_single_share`) or a dollar-cost-average buy (`dca_buy`)
depending on the `waiting_for_dca` flag and a price comparison against the
last unit-buy price.

Modelling choices:
- Prices and dollar amounts (Python floats) are rationals.
- Calendar dates (Python date strings) are `String`.
- The broker order submission (`self.api.submit_order`) is external; its
  outcome is a `Bool` parameter `orderOk` (`false` means the call raised,
  i.e. order rejected or transport error).
- Python exceptions that escape an operation are modelled with `Except`:
  `zeroDivisionError` for `shares = self.dca_amount / current_price` at
  price 0, `noneTypeError` for formatting/comparing a `None` reference
  price in the DCA branch of `run`.
- Persistence (`save_data`) is byte-identical to the in-memory state, so
  the ledger state itself is what we track; file I/O is not modelled.
- The stored JSON record loaded in `__init__` is modelled by `RawData`,
  whose fields are `Option`-wrapped to represent possibly-absent dict keys
  (for `last_single_share_price` and `last_trade_date` the inner `Option`
  is the JSON `null` value, the outer one is key presence).
-/

namespace SounBot

/-- The in-memory ledger `self.data` of the bot, with every key present. -/
structure Ledger where
  last_single_share_price : Option ℚ
  total_invested : ℚ
  total_shares : ℚ
  waiting_for_dca : Bool
  trades_today : ℕ
  last_trade_date : Option String
  deriving DecidableEq, Repr

/-- Zero state: the dictionary built in the `except` branch of `__init__`. -/
def zeroLedger : Ledger :=
  { last_single_share_price := none
    total_invested := 0
    total_shares := 0
    waiting_for_dca := false
    trades_today := 0
    last_trade_date := none }

/-- The configured DCA dollar amount, `self.dca_amount = 20.0`. -/
def dca_amount : ℚ := 20

/-- The day-rollover part of `check_daily_trade_limit`: reset the counter
and stamp the date when the stored date differs from today. -/
def rolloverDayIfNeeded (st : Ledger) (today : String) : Ledger :=
  if st.last_trade_date ≠ some today then
    { st with trades_today := 0, last_trade_date := some today }
  else
    st

/-- `check_daily_trade_limit`: rollover, then report whether trading is
still allowed today (strictly fewer than 2 trades executed). -/
def check_daily_trade_limit (st : Ledger) (today : String) : Ledger × Bool :=
  let st1 := rolloverDayIfNeeded st today
  (st1, decide (st1.trades_today < 2))

/-- `record_trade`: increment the daily trade counter. -/
def record_trade (st : Ledger) : Ledger :=
  { st with trades_today := st.trades_today + 1 }

/-- `buy_single_share`: submit a 1-share market order; on success mutate
the ledger (reference price, totals, phase flag) and count the trade; if
submission raised, catch and leave the ledger untouched. Returns the
Python return value paired with the resulting ledger. -/
def buy_single_share (st : Ledger) (current_price : ℚ) (orderOk : Bool) :
    Bool × Ledger :=
  if orderOk then
    let st1 := { st with
      last_single_share_price := some current_price
      total_invested := st.total_invested + current_price
      total_shares := st.total_shares + 1
      waiting_for_dca := true }
    (true, record_trade st1)
  else
    (false, st)

/-- Exceptions that can escape a tick in the embedded fragment. -/
inductive RunError
  | zeroDivisionError
  | noneTypeError
  deriving DecidableEq, Repr

/-- `dca_buy`: compute `shares = self.dca_amount / current_price` (raising
`ZeroDivisionError` at price 0, before the try block), submit the order;
on success mutate totals and count the trade; if submission raised, catch
and leave the ledger untouched. Returns (outcome, resulting ledger). -/
def dca_buy (st : Ledger) (current_price : ℚ) (orderOk : Bool) :
    Except RunError Bool × Ledger :=
  if current_price = 0 then
    (Except.error RunError.zeroDivisionError, st)
  else
    let shares := dca_amount / current_price
    if orderOk then
      let st1 := { st with
        total_invested := st.total_invested + dca_amount
        total_shares := st.total_shares + shares }
      (Except.ok true, record_trade st1)
    else
      (Except.ok false, st)

/-- Observable outcome of one tick, mirroring the printed decisions. -/
inductive TickResult
  | dailyLimitReached
  | unitBuyExecuted (price : ℚ)
  | unitBuyFailed
  | insufficientFundsForUnit
  | dcaExecuted (price shares : ℚ)
  | dcaFailed
  | insufficientFundsForDca
  | waitingForPriceDrop
  deriving DecidableEq, Repr

instance instDecidableEqExcept {ε α : Type} [DecidableEq ε] [DecidableEq α] :
    DecidableEq (Except ε α) := fun x y =>
  match x, y with
  | Except.ok a, Except.ok b =>
    if h : a = b then isTrue (by rw [h]) else isFalse (by simp [h])
  | Except.ok _, Except.error _ => isFalse (by simp)
  | Except.error _, Except.ok _ => isFalse (by simp)
  | Except.error e, Except.error f =>
    if h : e = f then isTrue (by rw [h]) else isFalse (by simp [h])

/-- Full outcome of one tick: the emitted result (or escaped exception),
the ledger state when the tick ends (the state is persisted as it is
mutated, so it survives an escaped exception), and whether an order
submission was attempted. -/
structure RunOutcome where
  result : Except RunError TickResult
  state : Ledger
  submitted : Bool
  deriving DecidableEq, Repr

/-- One tick of `run` after balance and price have been fetched:
daily-limit gate, then the phase-dependent cycle logic. The trailing
position-summary printing does not mutate the ledger and is omitted. -/
def run (st : Ledger) (balance current_price : ℚ) (today : String)
    (orderOk : Bool) : RunOutcome :=
  let st1 := (check_daily_trade_limit st today).1
  let can_trade := (check_daily_trade_limit st today).2
  if can_trade = false then
    { result := Except.ok TickResult.dailyLimitReached
      state := st1
      submitted := false }
  else if st1.waiting_for_dca = false then
    if balance ≥ current_price then
      match buy_single_share st1 current_price orderOk with
      | (true, st2) =>
        { result := Except.ok (TickResult.unitBuyExecuted current_price)
          state := st2
          submitted := true }
      | (false, st2) =>
        { result := Except.ok TickResult.unitBuyFailed
          state := st2
          submitted := true }
    else
      { result := Except.ok TickResult.insufficientFundsForUnit
        state := st1
        submitted := false }
  else
    match st1.last_single_share_price with
    | none =>
      { result := Except.error RunError.noneTypeError
        state := st1
        submitted := false }
    | some last_price =>
      if current_price < last_price then
        if balance ≥ dca_amount then
          match dca_buy st1 current_price orderOk with
          | (Except.error e, st2) =>
            { result := Except.error e, state := st2, submitted := false }
          | (Except.ok true, st2) =>
            { result := Except.ok
                (TickResult.dcaExecuted current_price
                  (dca_amount / current_price))
              state := { st2 with waiting_for_dca := false }
              submitted := true }
          | (Except.ok false, st2) =>
            { result := Except.ok TickResult.dcaFailed
              state := st2
              submitted := true }
        else
          { result := Except.ok TickResult.insufficientFundsForDca
            state := st1
            submitted := false }
      else
        { result := Except.ok TickResult.waitingForPriceDrop
          state := st1
          submitted := false }

/-- The stored JSON record read in `__init__`: each dict key may be absent
(outer `Option`); `last_single_share_price` and `last_trade_date` may also
hold JSON `null` (inner `Option`). -/
structure RawData where
  last_single_share_price : Option (Option ℚ)
  total_invested : Option ℚ
  total_shares : Option ℚ
  waiting_for_dca : Option Bool
  trades_today : Option ℕ
  last_trade_date : Option (Option String)
  deriving DecidableEq, Repr

/-- The zero-state record built when the file is missing or corrupt. -/
def zeroData : RawData :=
  { last_single_share_price := some none
    total_invested := some 0
    total_shares := some 0
    waiting_for_dca := some false
    trades_today := some 0
    last_trade_date := some none }

/-- The load logic of `__init__`: `none` input models a missing or corrupt
file (any exception from `open`/`json.load`); otherwise the parsed record
is kept, with only `trades_today` and `last_trade_date` backfilled when
absent. -/
def loadData (stored : Option RawData) : RawData :=
  match stored with
  | none => zeroData
  | some d =>
    { d with
      trades_today := some (d.trades_today.getD 0)
      last_trade_date := some (d.last_trade_date.getD none) }

/-- Conversion of a raw record to a usable ledger: succeeds only when
every key is present; a `none` result means subsequent dictionary accesses
(`self.data[...]`) raise `KeyError`. -/
def toLedger (d : RawData) : Option Ledger :=
  match d.last_single_share_price, d.total_invested, d.total_shares,
      d.waiting_for_dca, d.trades_today, d.last_trade_date with
  | some rp, some ti, some ts, some w, some tt, some ld =>
    some { last_single_share_price := rp
           total_invested := ti
           total_shares := ts
           waiting_for_dca := w
           trades_today := tt
           last_trade_date := ld }
  | _, _, _, _, _, _ => none

/-- The ledger operations of the claim about reachable states: successful
unit buy, successful DCA buy (with the phase reset done in `run`), day
rollover, and trade recording. -/
inductive LedgerOp
  | unitBuy (price : ℚ)
  | dcaBuy (price : ℚ)
  | rollover (today : String)
  | recordTrade
  deriving DecidableEq, Repr

/-- Apply one ledger operation (order submissions succeed). -/
def applyOp (st : Ledger) : LedgerOp → Ledger
  | LedgerOp.unitBuy p => (buy_single_share st p true).2
  | LedgerOp.dcaBuy p =>
    match dca_buy st p true with
    | (Except.ok true, st2) => { st2 with waiting_for_dca := false }
    | (_, st2) => st2
  | LedgerOp.rollover d => rolloverDayIfNeeded st d
  | LedgerOp.recordTrade => record_trade st

/-- Apply a sequence of ledger operations from left to right. -/
def applyOps (st : Ledger) (ops : List LedgerOp) : Ledger :=
  ops.foldl applyOp st

/-- Phase invariant: whenever the bot is waiting for a DCA, a reference
price from the last unit buy is recorded. -/
def Inv (st : Ledger) : Prop :=
  st.waiting_for_dca = true → st.last_single_share_price ≠ none

/-! ### Helper lemmas about the individual operations -/

@[simp]
theorem rollover_last_trade_date (st : Ledger) (d : String) :
    (rolloverDayIfNeeded st d).last_trade_date = some d := by
  unfold rolloverDayIfNeeded
  split
  · rfl
  · next h => simpa using h

@[simp]
theorem rollover_total_invested (st : Ledger) (d : String) :
    (rolloverDayIfNeeded st d).total_invested = st.total_invested := by
  unfold rolloverDayIfNeeded
  split <;> rfl

@[simp]
theorem rollover_total_shares (st : Ledger) (d : String) :
    (rolloverDayIfNeeded st d).total_shares = st.total_shares := by
  unfold rolloverDayIfNeeded
  split <;> rfl

@[simp]
theorem rollover_waiting (st : Ledger) (d : String) :
    (rolloverDayIfNeeded st d).waiting_for_dca = st.waiting_for_dca := by
  unfold rolloverDayIfNeeded
  split <;> rfl

@[simp]
theorem rollover_ref_price (st : Ledger) (d : String) :
    (rolloverDayIfNeeded st d).last_single_share_price =
      st.last_single_share_price := by
  unfold rolloverDayIfNeeded
  split <;> rfl

theorem rollover_noop_of_date (st : Ledger) (d : String)
    (h : st.last_trade_date = some d) : rolloverDayIfNeeded st d = st := by
  simp [rolloverDayIfNeeded, h]

theorem rollover_eq_self_of_two (st : Ledger) (d : String)
    (h : (rolloverDayIfNeeded st d).trades_today ≥ 2) :
    rolloverDayIfNeeded st d = st := by
  by_cases hd : st.last_trade_date = some d
  · exact rollover_noop_of_date st d hd
  · exfalso
    simp [rolloverDayIfNeeded, hd] at h

@[simp]
theorem check_fst (st : Ledger) (d : String) :
    (check_daily_trade_limit st d).1 = rolloverDayIfNeeded st d := rfl

@[simp]
theorem check_snd (st : Ledger) (d : String) :
    (check_daily_trade_limit st d).2 =
      decide ((rolloverDayIfNeeded st d).trades_today < 2) := rfl

@[simp]
theorem record_trade_date (st : Ledger) :
    (record_trade st).last_trade_date = st.last_trade_date := rfl

theorem buy_single_share_state_date (st : Ledger) (p : ℚ) (ok : Bool) :
    ((buy_single_share st p ok).2).last_trade_date = st.last_trade_date := by
  unfold buy_single_share
  split <;> rfl

theorem dca_buy_state_date (st : Ledger) (p : ℚ) (ok : Bool) :
    ((dca_buy st p ok).2).last_trade_date = st.last_trade_date := by
  unfold dca_buy
  split
  · rfl
  · split <;> rfl

theorem buy_single_share_fail (st : Ledger) (p : ℚ) :
    buy_single_share st p false = (false, st) := rfl

theorem dca_buy_fail (st : Ledger) (p : ℚ) :
    (dca_buy st p false).2 = st := by
  unfold dca_buy
  split <;> rfl

@[simp]
theorem record_trade_invested (st : Ledger) :
    (record_trade st).total_invested = st.total_invested := rfl

@[simp]
theorem record_trade_shares (st : Ledger) :
    (record_trade st).total_shares = st.total_shares := rfl

@[simp]
theorem record_trade_waiting (st : Ledger) :
    (record_trade st).waiting_for_dca = st.waiting_for_dca := rfl

@[simp]
theorem record_trade_ref (st : Ledger) :
    (record_trade st).last_single_share_price = st.last_single_share_price := rfl

theorem dca_buy_fst_not_ok_true (st : Ledger) (p : ℚ) :
    (dca_buy st p false).1 ≠ Except.ok true := by
  unfold dca_buy
  split
  · simp
  · simp

/-! ### Claim theorems -/

/-- C9: the day rollover is idempotent within a day (a second application
with the same date changes nothing), and on a genuinely new date it sets
the daily counter to 0 and the stored date to that date. -/
theorem rollover_idempotent_and_resets (st : Ledger) (d : String) :
    rolloverDayIfNeeded (rolloverDayIfNeeded st d) d = rolloverDayIfNeeded st d ∧
    (st.last_trade_date ≠ some d →
      (rolloverDayIfNeeded st d).trades_today = 0 ∧
      (rolloverDayIfNeeded st d).last_trade_date = some d) := by
  constructor
  · exact rollover_noop_of_date _ d (rollover_last_trade_date st d)
  · intro hne
    simp [rolloverDayIfNeeded, hne]

/-- C9 witness: starting from the zero ledger (stored date null) on a
concrete date, the rollover resets the counter and stamps the date. -/
theorem rollover_idempotent_and_resets_witness :
    zeroLedger.last_trade_date ≠ some "2025-06-02" ∧
    ((rolloverDayIfNeeded zeroLedger "2025-06-02").trades_today = 0 ∧
      (rolloverDayIfNeeded zeroLedger "2025-06-02").last_trade_date =
        some "2025-06-02") :=
  ⟨by decide,
    (rollover_idempotent_and_resets zeroLedger "2025-06-02").2 (by decide)⟩

/-- C10: after any tick (whatever its outcome, even one that executes no
trade), the stored last_trade_date equals the tick's current date, while
record_trade itself never touches that field: the field records the date
of the last evaluation, not of the last executed trade. -/
theorem tick_sets_last_trade_date (st : Ledger) (balance price : ℚ)
    (today : String) (orderOk : Bool) :
    (run st balance price today orderOk).state.last_trade_date = some today ∧
    (record_trade st).last_trade_date = st.last_trade_date := by
  refine ⟨?_, rfl⟩
  unfold run
  simp only [check_fst, check_snd]
  split
  · exact rollover_last_trade_date st today
  · split
    · split
      · split
        · next st2 heq =>
          have h := buy_single_share_state_date
            (rolloverDayIfNeeded st today) price orderOk
          rw [heq] at h
          rw [h, rollover_last_trade_date]
        · next st2 heq =>
          have h := buy_single_share_state_date
            (rolloverDayIfNeeded st today) price orderOk
          rw [heq] at h
          rw [h, rollover_last_trade_date]
      · exact rollover_last_trade_date st today
    · split
      · exact rollover_last_trade_date st today
      · split
        · split
          · split
            · next e st2 heq =>
              have h := dca_buy_state_date
                (rolloverDayIfNeeded st today) price orderOk
              rw [heq] at h
              rw [h, rollover_last_trade_date]
            · next st2 heq =>
              have h := dca_buy_state_date
                (rolloverDayIfNeeded st today) price orderOk
              rw [heq] at h
              rw [h, rollover_last_trade_date]
            · next st2 heq =>
              have h := dca_buy_state_date
                (rolloverDayIfNeeded st today) price orderOk
              rw [heq] at h
              rw [h, rollover_last_trade_date]
          · exact rollover_last_trade_date st today
        · exact rollover_last_trade_date st today

/-- C1: when broker order submission raises (order rejected or transport
error, orderOk = false), no ledger field is mutated by the tick: the final
state equals the pre-tick state with only the day rollover applied. This
covers both the unit-buy and the DCA-buy submission paths (and trivially
every non-submitting branch). -/
theorem run_no_mutation_on_submission_failure (st : Ledger)
    (balance price : ℚ) (today : String) :
    (run st balance price today false).state = rolloverDayIfNeeded st today := by
  unfold run
  simp only [check_fst, check_snd]
  split
  · rfl
  · split
    · split
      · split
        · next st2 heq =>
          rw [buy_single_share_fail] at heq
          cases heq
        · next st2 heq =>
          rw [buy_single_share_fail] at heq
          cases heq
          rfl
      · rfl
    · split
      · rfl
      · split
        · split
          · split
            · next e st2 heq =>
              have h := dca_buy_fail (rolloverDayIfNeeded st today) price
              rw [heq] at h
              exact h
            · next st2 heq =>
              have h := dca_buy_fst_not_ok_true
                (rolloverDayIfNeeded st today) price
              rw [heq] at h
              simp at h
            · next st2 heq =>
              have h := dca_buy_fail (rolloverDayIfNeeded st today) price
              rw [heq] at h
              exact h
          · rfl
        · rfl

/-- C2: a successful unit buy at price P sets the reference price to P,
enters the DCA-pending phase, and increments total_shares by exactly 1 and
total_invested by exactly P relative to the pre-tick state. -/
theorem unit_buy_success_post (st : Ledger) (balance price : ℚ)
    (today : String)
    (hphase : (rolloverDayIfNeeded st today).waiting_for_dca = false)
    (hlimit : (rolloverDayIfNeeded st today).trades_today < 2)
    (hfunds : balance ≥ price) :
    (run st balance price today true).result =
      Except.ok (TickResult.unitBuyExecuted price) ∧
    (run st balance price today true).state.last_single_share_price =
      some price ∧
    (run st balance price today true).state.total_invested =
      st.total_invested + price ∧
    (run st balance price today true).state.total_shares =
      st.total_shares + 1 ∧
    (run st balance price today true).state.waiting_for_dca = true := by
  have h1 : ¬ ((decide ((rolloverDayIfNeeded st today).trades_today < 2))
      = false) := by
    simp [hlimit]
  have hrun : run st balance price today true =
      { result := Except.ok (TickResult.unitBuyExecuted price)
        state := record_trade { rolloverDayIfNeeded st today with
          last_single_share_price := some price
          total_invested := (rolloverDayIfNeeded st today).total_invested + price
          total_shares := (rolloverDayIfNeeded st today).total_shares + 1
          waiting_for_dca := true }
        submitted := true } := by
    unfold run
    simp only [check_fst, check_snd]
    rw [if_neg h1, if_pos hphase, if_pos hfunds]
    unfold buy_single_share
    simp
  refine ⟨?_, ?_, ?_, ?_, ?_⟩ <;> rw [hrun] <;> simp

/-- C2 witness: from the zero ledger with balance 100 and price 5, the
unit buy executes and produces the advertised post-state. -/
theorem unit_buy_success_post_witness :
    ((rolloverDayIfNeeded zeroLedger "2025-06-02").waiting_for_dca = false ∧
      (rolloverDayIfNeeded zeroLedger "2025-06-02").trades_today < 2 ∧
      (100 : ℚ) ≥ 5) ∧
    ((run zeroLedger 100 5 "2025-06-02" true).result =
        Except.ok (TickResult.unitBuyExecuted 5) ∧
      (run zeroLedger 100 5 "2025-06-02" true).state.last_single_share_price =
        some 5 ∧
      (run zeroLedger 100 5 "2025-06-02" true).state.total_invested =
        zeroLedger.total_invested + 5 ∧
      (run zeroLedger 100 5 "2025-06-02" true).state.total_shares =
        zeroLedger.total_shares + 1 ∧
      (run zeroLedger 100 5 "2025-06-02" true).state.waiting_for_dca = true) :=
  ⟨⟨by decide, by decide, by decide⟩,
    unit_buy_success_post zeroLedger 100 5 "2025-06-02"
      (by decide) (by decide) (by decide)⟩

/-- C3: a successful DCA buy at price P > 0 below the reference price adds
exactly dca_amount / P shares and dca_amount invested dollars, returns the
bot to the accumulate phase, and leaves the reference price unchanged. -/
theorem dca_success_post (st : Ledger) (balance price R : ℚ)
    (today : String)
    (hphase : (rolloverDayIfNeeded st today).waiting_for_dca = true)
    (href : (rolloverDayIfNeeded st today).last_single_share_price = some R)
    (hdrop : price < R) (hpos : 0 < price)
    (hfunds : balance ≥ dca_amount)
    (hlimit : (rolloverDayIfNeeded st today).trades_today < 2) :
    (run st balance price today true).result =
      Except.ok (TickResult.dcaExecuted price (dca_amount / price)) ∧
    (run st balance price today true).state.total_shares =
      st.total_shares + dca_amount / price ∧
    (run st balance price today true).state.total_invested =
      st.total_invested + dca_amount ∧
    (run st balance price today true).state.waiting_for_dca = false ∧
    (run st balance price today true).state.last_single_share_price =
      st.last_single_share_price := by
  have h1 : ¬ ((decide ((rolloverDayIfNeeded st today).trades_today < 2))
      = false) := by
    simp [hlimit]
  have h2 : ¬ ((rolloverDayIfNeeded st today).waiting_for_dca = false) := by
    rw [hphase]
    simp
  have hne : price ≠ 0 := ne_of_gt hpos
  have hdca : dca_buy (rolloverDayIfNeeded st today) price true =
      (Except.ok true, record_trade { rolloverDayIfNeeded st today with
        total_invested :=
          (rolloverDayIfNeeded st today).total_invested + dca_amount
        total_shares :=
          (rolloverDayIfNeeded st today).total_shares + dca_amount / price }) := by
    unfold dca_buy
    rw [if_neg hne]
    simp
  have hrun : run st balance price today true =
      { result := Except.ok
          (TickResult.dcaExecuted price (dca_amount / price))
        state :=
          { record_trade { rolloverDayIfNeeded st today with
              total_invested :=
                (rolloverDayIfNeeded st today).total_invested + dca_amount
              total_shares :=
                (rolloverDayIfNeeded st today).total_shares +
                  dca_amount / price } with
            waiting_for_dca := false }
        submitted := true } := by
    unfold run
    simp only [check_fst, check_snd]
    rw [if_neg h1, if_neg h2, href]
    simp [hdrop, hfunds, hdca, record_trade]
    simpa using href
  refine ⟨?_, ?_, ?_, ?_, ?_⟩ <;> rw [hrun] <;> simp [record_trade]

/-- C3 witness: ledger in DCA-pending phase with reference price 5, tick
price 4, balance 20 — the DCA executes and adds dca_amount / 4 shares. -/
theorem dca_success_post_witness :
    ((rolloverDayIfNeeded
        { last_single_share_price := some 5
          total_invested := 5
          total_shares := 1
          waiting_for_dca := true
          trades_today := 0
          last_trade_date := some "2025-06-02" } "2025-06-02").waiting_for_dca
        = true ∧
      (rolloverDayIfNeeded
        { last_single_share_price := some 5
          total_invested := 5
          total_shares := 1
          waiting_for_dca := true
          trades_today := 0
          last_trade_date := some "2025-06-02" }
          "2025-06-02").last_single_share_price = some 5 ∧
      (4 : ℚ) < 5 ∧ (0 : ℚ) < 4 ∧ (20 : ℚ) ≥ dca_amount ∧
      (rolloverDayIfNeeded
        { last_single_share_price := some 5
          total_invested := 5
          total_shares := 1
          waiting_for_dca := true
          trades_today := 0
          last_trade_date := some "2025-06-02" } "2025-06-02").trades_today
        < 2) ∧
    ((run
        { last_single_share_price := some 5
          total_invested := 5
          total_shares := 1
          waiting_for_dca := true
          trades_today := 0
          last_trade_date := some "2025-06-02" } 20 4 "2025-06-02"
          true).result =
      Except.ok (TickResult.dcaExecuted 4 (dca_amount / 4)) ∧
      (run
        { last_single_share_price := some 5
          total_invested := 5
          total_shares := 1
          waiting_for_dca := true
          trades_today := 0
          last_trade_date := some "2025-06-02" } 20 4 "2025-06-02"
          true).state.total_shares = 1 + dca_amount / 4 ∧
      (run
        { last_single_share_price := some 5
          total_invested := 5
          total_shares := 1
          waiting_for_dca := true
          trades_today := 0
          last_trade_date := some "2025-06-02" } 20 4 "2025-06-02"
          true).state.total_invested = 5 + dca_amount ∧
      (run
        { last_single_share_price := some 5
          total_invested := 5
          total_shares := 1
          waiting_for_dca := true
          trades_today := 0
          last_trade_date := some "2025-06-02" } 20 4 "2025-06-02"
          true).state.waiting_for_dca = false ∧
      (run
        { last_single_share_price := some 5
          total_invested := 5
          total_shares := 1
          waiting_for_dca := true
          trades_today := 0
          last_trade_date := some "2025-06-02" } 20 4 "2025-06-02"
          true).state.last_single_share_price = some 5) :=
  ⟨⟨by decide, by decide, by decide, by decide, by decide, by decide⟩,
    dca_success_post
      { last_single_share_price := some 5
        total_invested := 5
        total_shares := 1
        waiting_for_dca := true
        trades_today := 0
        last_trade_date := some "2025-06-02" } 20 4 5 "2025-06-02"
      (by decide) (by decide) (by decide) (by decide) (by decide)
      (by decide)⟩

/-- C4: when the resolved day already has 2 or more executed trades, the
tick emits the daily-limit result, submits no order, and leaves every
ledger field exactly as it was before the tick. -/
theorem daily_limit_no_action (st : Ledger) (balance price : ℚ)
    (today : String) (orderOk : Bool)
    (h : (rolloverDayIfNeeded st today).trades_today ≥ 2) :
    run st balance price today orderOk =
      { result := Except.ok TickResult.dailyLimitReached
        state := st
        submitted := false } := by
  have hself := rollover_eq_self_of_two st today h
  have h2 : (check_daily_trade_limit st today).2 = false := by
    simp only [check_snd, decide_eq_false_iff_not, not_lt]
    exact h
  unfold run
  rw [h2]
  simp [check_fst, hself]

/-- C4 witness: a ledger already at 2 trades on the current date yields
the daily-limit outcome with the ledger unchanged. -/
theorem daily_limit_no_action_witness :
    (rolloverDayIfNeeded
        { last_single_share_price := some 5
          total_invested := 5
          total_shares := 1
          waiting_for_dca := false
          trades_today := 2
          last_trade_date := some "2025-06-02" } "2025-06-02").trades_today ≥ 2 ∧
    run
        { last_single_share_price := some 5
          total_invested := 5
          total_shares := 1
          waiting_for_dca := false
          trades_today := 2
          last_trade_date := some "2025-06-02" } 100 5 "2025-06-02" true =
      { result := Except.ok TickResult.dailyLimitReached
        state :=
          { last_single_share_price := some 5
            total_invested := 5
            total_shares := 1
            waiting_for_dca := false
            trades_today := 2
            last_trade_date := some "2025-06-02" }
        submitted := false } :=
  ⟨by decide,
    daily_limit_no_action
      { last_single_share_price := some 5
        total_invested := 5
        total_shares := 1
        waiting_for_dca := false
        trades_today := 2
        last_trade_date := some "2025-06-02" } 100 5 "2025-06-02" true
      (by decide)⟩

/-- C7 helper: each ledger operation preserves the phase invariant. -/
theorem applyOp_preserves_Inv (st : Ledger) (op : LedgerOp) (h : Inv st) :
    Inv (applyOp st op) := by
  cases op with
  | unitBuy p =>
    intro _
    simp [applyOp, buy_single_share, record_trade]
  | dcaBuy p =>
    by_cases hp : p = 0
    · simpa [applyOp, dca_buy, hp] using h
    · intro hw
      simp [applyOp, dca_buy, hp, record_trade] at hw
  | rollover d =>
    intro hw
    simp only [applyOp, rollover_waiting] at hw
    simp only [applyOp, rollover_ref_price]
    exact h hw
  | recordTrade =>
    intro hw
    exact h hw

/-- C7: in every ledger state reachable from the zero state by unit buys,
DCA buys, day rollovers and trade recordings, being in the DCA-pending
phase implies the reference price is non-null. -/
theorem waiting_implies_reference_reachable (ops : List LedgerOp)
    (h : (applyOps zeroLedger ops).waiting_for_dca = true) :
    (applyOps zeroLedger ops).last_single_share_price ≠ none := by
  have key : ∀ (l : List LedgerOp) (st : Ledger), Inv st → Inv (applyOps st l) := by
    intro l
    induction l with
    | nil => intro st h0; exact h0
    | cons op tl ih =>
      intro st h0
      exact ih (applyOp st op) (applyOp_preserves_Inv st op h0)
  have h0 : Inv zeroLedger := by
    intro hw
    simp [zeroLedger] at hw
  exact key ops zeroLedger h0 h

/-- C7 witness: after one unit buy at price 5 the bot is DCA-pending and
the reference price is recorded. -/
theorem waiting_implies_reference_reachable_witness :
    (applyOps zeroLedger [LedgerOp.unitBuy 5]).waiting_for_dca = true ∧
    (applyOps zeroLedger [LedgerOp.unitBuy 5]).last_single_share_price ≠
      none :=
  ⟨by decide, waiting_implies_reference_reachable [LedgerOp.unitBuy 5]
    (by decide)⟩

/-- C5 counterexample: at the non-positive price -1 with a successful
submission, dca_buy raises no InvalidPrice error (no such error exists in
the code), computes shares = dca_amount / (-1) = -20, and mutates the
ledger. -/
theorem dca_negative_price_mutates :
    (-1 : ℚ) ≤ 0 ∧
    (dca_buy zeroLedger (-1) true).1 = Except.ok true ∧
    (dca_buy zeroLedger (-1) true).2.total_invested = 20 ∧
    (dca_buy zeroLedger (-1) true).2.total_shares = -20 ∧
    (dca_buy zeroLedger (-1) true).2 ≠ zeroLedger := by
  refine ⟨by norm_num, ?_, ?_, ?_, ?_⟩ <;>
    norm_num [dca_buy, dca_amount, record_trade, zeroLedger, Ledger.mk.injEq]

/-- C5 amended: dca_buy has no price guard. At price 0 the shares
computation raises ZeroDivisionError before the order is submitted, with
no mutation; at negative prices the (negative) share quantity is computed
and submitted, the ledger is mutated when submission succeeds, and is left
unchanged only when submission fails. -/
theorem dca_nonpositive_price_behavior (st : Ledger) (price : ℚ)
    (_hp : price ≤ 0) :
    (dca_buy st price false).2 = st ∧
    (price = 0 → dca_buy st price true =
      (Except.error RunError.zeroDivisionError, st)) ∧
    (price < 0 → dca_buy st price true =
      (Except.ok true, record_trade { st with
        total_invested := st.total_invested + dca_amount
        total_shares := st.total_shares + dca_amount / price })) := by
  refine ⟨dca_buy_fail st price, ?_, ?_⟩
  · intro h0
    simp [dca_buy, h0]
  · intro hneg
    have hne : price ≠ 0 := ne_of_lt hneg
    simp [dca_buy, hne]

/-- C5 amended witness: the behavior at the concrete price -1. -/
theorem dca_nonpositive_price_behavior_witness :
    ((-1 : ℚ) ≤ 0) ∧
    ((dca_buy zeroLedger (-1) false).2 = zeroLedger ∧
      ((-1 : ℚ) = 0 → dca_buy zeroLedger (-1) true =
        (Except.error RunError.zeroDivisionError, zeroLedger)) ∧
      ((-1 : ℚ) < 0 → dca_buy zeroLedger (-1) true =
        (Except.ok true, record_trade { zeroLedger with
          total_invested := zeroLedger.total_invested + dca_amount
          total_shares := zeroLedger.total_shares + dca_amount / (-1) }))) :=
  ⟨by decide, dca_nonpositive_price_behavior zeroLedger (-1) (by decide)⟩

/-- A stored record from an older schema: position fields present, the
later-added keys waiting_for_dca, trades_today and last_trade_date absent. -/
def legacyData : RawData :=
  { last_single_share_price := some (some 5)
    total_invested := some 5
    total_shares := some 1
    waiting_for_dca := none
    trades_today := none
    last_trade_date := none }

/-- C6 counterexample: loading a record that lacks the waiting_for_dca key
backfills trades_today and last_trade_date but leaves waiting_for_dca
absent, so the record does not convert to a usable ledger and a subsequent
access of that key fails. -/
theorem load_missing_field_not_backfilled :
    (loadData (some legacyData)).trades_today = some 0 ∧
    (loadData (some legacyData)).last_trade_date = some none ∧
    (loadData (some legacyData)).waiting_for_dca = none ∧
    (loadData (some legacyData)).waiting_for_dca ≠ some false ∧
    toLedger (loadData (some legacyData)) = none := by
  decide

/-- C6 amended: on missing or corrupt storage, load returns the zero-state
record (which converts to the zero-state ledger); on a loaded record it
backfills exactly the two later-added fields trades_today and
last_trade_date, passing the four remaining fields through unchanged,
absent or not. -/
theorem load_zero_state_and_partial_backfill (d : RawData) :
    loadData none = zeroData ∧
    toLedger zeroData = some zeroLedger ∧
    (loadData (some d)).trades_today = some (d.trades_today.getD 0) ∧
    (loadData (some d)).last_trade_date =
      some (d.last_trade_date.getD none) ∧
    (loadData (some d)).waiting_for_dca = d.waiting_for_dca ∧
    (loadData (some d)).last_single_share_price =
      d.last_single_share_price ∧
    (loadData (some d)).total_invested = d.total_invested ∧
    (loadData (some d)).total_shares = d.total_shares :=
  ⟨rfl, rfl, rfl, rfl, rfl, rfl, rfl, rfl⟩

/-- DCA-pending ledger whose daily quota is already exhausted today. -/
def dcaPendingCapped : Ledger :=
  { last_single_share_price := some 5
    total_invested := 5
    total_shares := 1
    waiting_for_dca := true
    trades_today := 2
    last_trade_date := some "2025-06-02" }

/-- DCA-pending ledger that has not yet been evaluated today. -/
def dcaPendingNewDay : Ledger :=
  { last_single_share_price := some 5
    total_invested := 5
    total_shares := 1
    waiting_for_dca := true
    trades_today := 0
    last_trade_date := none }

/-- C8 counterexample: two ticks in the DCA-pending phase with the price
(6) not below the reference (5). With the daily quota already used, the
result is DailyLimitReached, not WaitingForPriceDrop; and on a tick whose
date is new, the result is WaitingForPriceDrop but the ledger does change
(the rollover rewrites last_trade_date). -/
theorem waiting_price_not_below_counterexample :
    dcaPendingCapped.waiting_for_dca = true ∧
    dcaPendingCapped.last_single_share_price = some 5 ∧
    (6 : ℚ) ≥ 5 ∧
    (run dcaPendingCapped 100 6 "2025-06-02" true).result ≠
      Except.ok TickResult.waitingForPriceDrop ∧
    (run dcaPendingCapped 100 6 "2025-06-02" true).result =
      Except.ok TickResult.dailyLimitReached ∧
    dcaPendingNewDay.waiting_for_dca = true ∧
    (run dcaPendingNewDay 100 6 "2025-06-02" true).result =
      Except.ok TickResult.waitingForPriceDrop ∧
    (run dcaPendingNewDay 100 6 "2025-06-02" true).state ≠
      dcaPendingNewDay := by
  decide

/-- C8 amended: in the DCA-pending phase with reference price R, when the
tick passes the daily-limit gate and the current price has not dropped
below R, the result is WaitingForPriceDrop, no order is submitted, and no
ledger field changes beyond the day rollover already applied by the gate —
for any balance and any broker outcome. -/
theorem waiting_for_price_drop_no_action (st : Ledger)
    (balance price R : ℚ) (today : String) (orderOk : Bool)
    (hphase : (rolloverDayIfNeeded st today).waiting_for_dca = true)
    (href : (rolloverDayIfNeeded st today).last_single_share_price = some R)
    (hge : price ≥ R)
    (hlimit : (rolloverDayIfNeeded st today).trades_today < 2) :
    run st balance price today orderOk =
      { result := Except.ok TickResult.waitingForPriceDrop
        state := rolloverDayIfNeeded st today
        submitted := false } := by
  have h1 : ¬ ((decide ((rolloverDayIfNeeded st today).trades_today < 2))
      = false) := by
    simp [hlimit]
  have h2 : ¬ ((rolloverDayIfNeeded st today).waiting_for_dca = false) := by
    rw [hphase]
    simp
  have h3 : ¬ (price < R) := not_lt.mpr hge
  unfold run
  simp only [check_fst, check_snd]
  rw [if_neg h1, if_neg h2, href]
  simp [h3]

/-- C8 amended witness: same-day DCA-pending ledger, reference 5, price 6:
the tick waits and the ledger is exactly the rolled-over state. -/
theorem waiting_for_price_drop_no_action_witness :
    ((rolloverDayIfNeeded dcaPendingNewDay "2025-06-02").waiting_for_dca
        = true ∧
      (rolloverDayIfNeeded dcaPendingNewDay
        "2025-06-02").last_single_share_price = some 5 ∧
      (6 : ℚ) ≥ 5 ∧
      (rolloverDayIfNeeded dcaPendingNewDay "2025-06-02").trades_today
        < 2) ∧
    run dcaPendingNewDay 100 6 "2025-06-02" true =
      { result := Except.ok TickResult.waitingForPriceDrop
        state := rolloverDayIfNeeded dcaPendingNewDay "2025-06-02"
        submitted := false } :=
  ⟨⟨by decide, by decide, by decide, by decide⟩,
    waiting_for_price_drop_no_action dcaPendingNewDay 100 6 5 "2025-06-02"
      true (by decide) (by decide) (by decide) (by decide)⟩

end SounBot
